import Mathlib

/-!
Shallow embedding of the rustnes NES emulator core (src/ppu.rs, src/control.rs,
src/mask.rs, src/status.rs, src/bus.rs, src/cpu.rs, src/render.rs, src/frame.rs)
and proofs about the frozen specification claims.

Machine integers are modelled as `Nat` with explicit wrap-around (`% 256`,
`% 65536`) exactly where the Rust code performs wrapping arithmetic or
truncating casts.  Rust functions that can panic (`panic!`, `todo!`,
`unimplemented!`, out-of-bounds `Vec` indexing) are modelled as `Option`
returning `none` on the panicking path.  Byte arrays are modelled as total
functions `Nat → Nat`; theorems carry byte-boundedness hypotheses where a
result depends on them.
-/

/-- Nametable mirroring mode.  Modelled from the spec: the file
`cartoridge.rs` defining `Mirroring` is not among the provided sources; the
spec lists the three variants Vertical, Horizontal, FourScreen. -/
inductive Mirroring where
  | VERTICAL
  | HORIZONTAL
  | FOUR_SCREEN
deriving DecidableEq

/-- Scroll register state.  Modelled from the spec: `scroll.rs` is not among
the provided sources; the spec says `$2005` takes two sequential writes
(X then Y) toggled by a latch which is reset by `$2002` reads. -/
structure ScrollRegister where
  x : Nat
  y : Nat
  latch : Bool
deriving DecidableEq

/-- Modelled from the spec: construction of the scroll register (zeroed, latch
down). -/
def ScrollRegister.new : ScrollRegister := ⟨0, 0, false⟩

/-- Modelled from the spec: a `$2005` write stores X on the first write and Y
on the second, toggling the latch. -/
def ScrollRegister.write (s : ScrollRegister) (v : Nat) : ScrollRegister :=
  if s.latch then { s with y := v, latch := !s.latch }
  else { s with x := v, latch := !s.latch }

/-- Modelled from the spec: `$2002` reads reset the scroll latch. -/
def ScrollRegister.reset_latch (s : ScrollRegister) : ScrollRegister :=
  { s with latch := false }

/-- bitflags `contains`: all bits of `flag` are set in `c` (control.rs). -/
def ControlRegister.contains (c flag : Nat) : Bool := (c &&& flag) == flag

/-- ControlRegister::new (control.rs line 17): from_bits_truncate(0). -/
def ControlRegister.new : Nat := 0

/-- ControlRegister::vram_addr_increment (control.rs lines 21-27): 1 unless
bit 2 (VRAM_ADDR_INCREMENT) is set, else 32. -/
def ControlRegister.vram_addr_increment (c : Nat) : Nat :=
  if !(ControlRegister.contains c 0x04) then 1 else 32

/-- ControlRegister::update (control.rs lines 29-31): from_bits_truncate;
all 8 bits are defined flags, so this keeps the low byte. -/
def ControlRegister.update (_c data : Nat) : Nat := data % 256

/-- ControlRegister::generate_vblank_status (control.rs lines 33-38):
returns the old GENERATE_NMI bit and — as a side effect — sets that bit.
The pair is (returned value, new register value). -/
def ControlRegister.generate_vblank_status (c : Nat) : Bool × Nat :=
  (ControlRegister.contains c 0x80, c ||| 0x80)

/-- ControlRegister::bknd_pattern_addr (control.rs lines 40-46). -/
def ControlRegister.bknd_pattern_addr (c : Nat) : Nat :=
  if ControlRegister.contains c 0x10 then 0x1000 else 0

/-- MaskRegister::new (mask.rs lines 17-19). -/
def MaskRegister.new : Nat := 0

/-- MaskRegister::update (mask.rs lines 21-23).  The Rust body is
`MaskRegister::from_bits_truncate(data);` — the computed value is discarded
and `self` is never assigned, so the register is left unchanged. -/
def MaskRegister.update (m _data : Nat) : Nat := m

/-- bitflags `set` on an 8-bit register (insert or remove `flag`). -/
def StatusRegister.set (s flag : Nat) (v : Bool) : Nat :=
  if v then s ||| flag else s &&& (0xFF ^^^ flag)

/-- StatusRegister::new (status.rs lines 12-14). -/
def StatusRegister.new : Nat := 0

/-- VBLANK_STARTED flag bit (status.rs line 7). -/
def StatusRegister.VBLANK_STARTED : Nat := 0x80

/-- bitflags `contains` for the status register. -/
def StatusRegister.contains (s flag : Nat) : Bool := (s &&& flag) == flag

/-- AddrRegister (ppu.rs lines 192-195): `value` is a pair of u8 (hi, lo)
plus the hi/lo write latch. -/
structure AddrRegister where
  hi : Nat
  lo : Nat
  hi_ptr : Bool
deriving DecidableEq

/-- AddrRegister::new (ppu.rs lines 198-203). -/
def AddrRegister.new : AddrRegister := ⟨0, 0, true⟩

/-- AddrRegister::get (ppu.rs lines 238-240). -/
def AddrRegister.get (r : AddrRegister) : Nat := (r.hi <<< 8) ||| r.lo

/-- AddrRegister::set (ppu.rs lines 205-208): hi = (data >> 8) as u8,
lo = (data & 0xff) as u8. -/
def AddrRegister.set (r : AddrRegister) (data : Nat) : AddrRegister :=
  { r with hi := (data >>> 8) % 256, lo := data &&& 0xff }

/-- AddrRegister::update (ppu.rs lines 210-221).  Note the mask literal in
the source is `0b11_11111_1111_1111`, i.e. fifteen 1-bits = 0x7FFF. -/
def AddrRegister.update (r : AddrRegister) (data : Nat) : AddrRegister :=
  let r := if r.hi_ptr then { r with hi := data } else { r with lo := data }
  let r := if r.get > 0x3fff then r.set (r.get &&& 0x7fff) else r
  { r with hi_ptr := !r.hi_ptr }

/-- AddrRegister::increment (ppu.rs lines 223-232): wrapping add on the low
byte, carry into the high byte, then the same fifteen-bit mask as update. -/
def AddrRegister.increment (r : AddrRegister) (inc : Nat) : AddrRegister :=
  let lo := r.lo
  let r := { r with lo := (r.lo + inc) % 256 }
  let r := if lo > r.lo then { r with hi := (r.hi + 1) % 256 } else r
  if r.get > 0x3fff then r.set (r.get &&& 0x7fff) else r

/-- AddrRegister::reset_latch (ppu.rs lines 234-236). -/
def AddrRegister.reset_latch (r : AddrRegister) : AddrRegister :=
  { r with hi_ptr := true }

/-- NesPPU state (ppu.rs lines 20-37).  Byte arrays are total functions. -/
structure NesPPU where
  chr_rom : Nat → Nat
  palette_table : Nat → Nat
  vram : Nat → Nat
  oam_addr : Nat
  oam_data : Nat → Nat
  mask : Nat
  scroll : ScrollRegister
  status : Nat
  mirroring : Mirroring
  addr : AddrRegister
  ctrl : Nat
  internal_data_buf : Nat
  scanline : Nat
  cycle : Nat
  nmi_interrupt : Option Nat

/-- NesPPU::new (ppu.rs lines 40-58). -/
def NesPPU.new (chr_rom : Nat → Nat) (mirroring : Mirroring) : NesPPU where
  chr_rom := chr_rom
  mirroring := mirroring
  vram := fun _ => 0
  oam_addr := 0
  oam_data := fun _ => 0
  palette_table := fun _ => 0
  addr := AddrRegister.new
  ctrl := ControlRegister.new
  mask := MaskRegister.new
  scroll := ScrollRegister.new
  status := StatusRegister.new
  internal_data_buf := 0
  scanline := 0
  cycle := 0
  nmi_interrupt := none

/-- NesPPU::tick (ppu.rs lines 60-79).  Returns `(state, frame_complete)`.
When the scanline counter reaches 241 and `generate_vblank_status` reports
the NMI bit was set, the source sets the VBlank flag and then executes
`todo!("Should trigger NMI interrupt")`, which panics: that path is `none`.
When the bit was clear, the side effect of `generate_vblank_status` on the
CTRL register (setting the NMI bit) persists. -/
def NesPPU.tick (p : NesPPU) (cycle : Nat) : Option (NesPPU × Bool) :=
  let p := { p with cycle := p.cycle + cycle }
  if p.cycle ≥ 341 then
    let p := { p with cycle := p.cycle - 341, scanline := p.scanline + 1 }
    let afterVblankCheck : Option NesPPU :=
      if p.scanline ≥ 241 then
        let r := ControlRegister.generate_vblank_status p.ctrl
        if r.1 then
          none
        else
          some { p with ctrl := r.2 }
      else some p
    match afterVblankCheck with
    | none => none
    | some p =>
      if p.scanline ≥ 262 then
        some ({ p with scanline := 0,
                       status := StatusRegister.set p.status StatusRegister.VBLANK_STARTED false },
              true)
      else some (p, false)
  else some (p, false)

/-- NesPPU::mirror_vram_addr (ppu.rs lines 81-93). -/
def NesPPU.mirror_vram_addr (p : NesPPU) (addr : Nat) : Nat :=
  let mirrored_vram := addr &&& 0x2fff
  let vram_index := mirrored_vram - 0x2000
  let name_table := vram_index / 0x400
  match p.mirroring, name_table with
  | Mirroring.VERTICAL, 2 => vram_index - 0x800
  | Mirroring.VERTICAL, 3 => vram_index - 0x800
  | Mirroring.HORIZONTAL, 2 => vram_index - 0x400
  | Mirroring.HORIZONTAL, 1 => vram_index - 0x400
  | Mirroring.HORIZONTAL, 3 => vram_index - 0x800
  | _, _ => vram_index

/-- NesPPU::increment_vrar_addr (ppu.rs lines 95-97). -/
def NesPPU.increment_vrar_addr (p : NesPPU) : NesPPU :=
  { p with addr := p.addr.increment (ControlRegister.vram_addr_increment p.ctrl) }

/-- PPU::write_to_ctrl for NesPPU (ppu.rs lines 101-110). -/
def NesPPU.write_to_ctrl (p : NesPPU) (value : Nat) : NesPPU :=
  let before_nmi_status := ControlRegister.contains p.ctrl 0x80
  let p := { p with ctrl := ControlRegister.update p.ctrl value }
  if !before_nmi_status
      && ControlRegister.contains p.ctrl 0x80
      && StatusRegister.contains p.status StatusRegister.VBLANK_STARTED then
    { p with nmi_interrupt := some 1 }
  else p

/-- PPU::write_to_mask for NesPPU (ppu.rs lines 112-114). -/
def NesPPU.write_to_mask (p : NesPPU) (value : Nat) : NesPPU :=
  { p with mask := MaskRegister.update p.mask value }

/-- PPU::read_status for NesPPU (ppu.rs lines 116-122): returns the bits,
clears VBLANK_STARTED, resets the address and scroll latches. -/
def NesPPU.read_status (p : NesPPU) : Nat × NesPPU :=
  (p.status,
   { p with status := p.status &&& (0xFF ^^^ StatusRegister.VBLANK_STARTED),
            addr := p.addr.reset_latch,
            scroll := p.scroll.reset_latch })

/-- PPU::write_to_oam_addr for NesPPU (ppu.rs lines 124-126). -/
def NesPPU.write_to_oam_addr (p : NesPPU) (value : Nat) : NesPPU :=
  { p with oam_addr := value }

/-- PPU::write_to_oam_data for NesPPU (ppu.rs lines 128-131). -/
def NesPPU.write_to_oam_data (p : NesPPU) (value : Nat) : NesPPU :=
  { p with oam_data := fun i => if i = p.oam_addr then value else p.oam_data i,
           oam_addr := (p.oam_addr + 1) % 256 }

/-- PPU::read_oam_data for NesPPU (ppu.rs lines 133-135). -/
def NesPPU.read_oam_data (p : NesPPU) : Nat := p.oam_data p.oam_addr

/-- PPU::write_to_scroll for NesPPU (ppu.rs lines 137-139). -/
def NesPPU.write_to_scroll (p : NesPPU) (value : Nat) : NesPPU :=
  { p with scroll := p.scroll.write value }

/-- PPU::write_to_ppu_addr for NesPPU (ppu.rs lines 141-143). -/
def NesPPU.write_to_ppu_addr (p : NesPPU) (value : Nat) : NesPPU :=
  { p with addr := p.addr.update value }

/-- PPU::write_to_data for NesPPU (ppu.rs lines 145-162).  The
`0x3000..=0x3eff` arm is `unimplemented!` and the final arm is `panic!`;
both are `none`.  `palette_table` is a `[u8; 32]` array, so the
`0x3f00..=0x3fff` arm panics (`none`) when `addr - 0x3f00` is 32 or more
(addresses `$3F20-$3FFF`); the four mirror addresses always index in
bounds (0, 4, 8, 12). -/
def NesPPU.write_to_data (p : NesPPU) (value : Nat) : Option NesPPU :=
  let addr := p.addr.get
  let written : Option NesPPU :=
    if addr ≤ 0x1fff then some p
    else if addr ≤ 0x2fff then
      some { p with vram := fun i =>
               if i = p.mirror_vram_addr addr then value else p.vram i }
    else if addr ≤ 0x3eff then none
    else if addr = 0x3f10 ∨ addr = 0x3f14 ∨ addr = 0x3f18 ∨ addr = 0x3f1c then
      some { p with palette_table := fun i =>
               if i = (addr - 0x10) - 0x3f00 then value else p.palette_table i }
    else if addr ≤ 0x3fff then
      if addr - 0x3f00 < 32 then
        some { p with palette_table := fun i =>
                 if i = addr - 0x3f00 then value else p.palette_table i }
      else none
    else none
  written.map NesPPU.increment_vrar_addr

/-- PPU::read_data for NesPPU (ppu.rs lines 164-182): captures the address,
increments it, and serves the read from the captured address.  Reads below
`0x3F00` go through the one-byte buffer; palette reads return directly and
leave the buffer untouched.  `palette_table` is a `[u8; 32]` array, so the
index `addr - 0x3f00` panics (`none`) when it is 32 or more (addresses
`$3F20-$3FFF`); addresses above `0x3FFF` panic too. -/
def NesPPU.read_data (p : NesPPU) : Option (Nat × NesPPU) :=
  let addr := p.addr.get
  let p := p.increment_vrar_addr
  if addr ≤ 0x1fff then
    some (p.internal_data_buf, { p with internal_data_buf := p.chr_rom addr })
  else if addr ≤ 0x3eff then
    some (p.internal_data_buf,
          { p with internal_data_buf := p.vram (p.mirror_vram_addr addr) })
  else if addr ≤ 0x3fff then
    if addr - 0x3f00 < 32 then some (p.palette_table (addr - 0x3f00), p)
    else none
  else none

/- ------------------------------------------------------------------ -/
/- Helper lemmas                                                       -/
/- ------------------------------------------------------------------ -/

/-- Masking with 0x7FF is reduction mod 0x800. -/
theorem and_7ff_eq_mod (a : Nat) : a &&& 0x7ff = a % 0x800 := by
  have := Nat.and_pow_two_sub_one_eq_mod a 11
  norm_num at this
  exact this

/-- Setting bit 7 with `|||` makes `contains 0x80` true. -/
theorem contains_or_80 (c : Nat) :
    ControlRegister.contains (c ||| 0x80) 0x80 = true := by
  have h : (c ||| 128) &&& 128 = c &&& 128 ||| 128 &&& 128 :=
    Nat.and_distrib_right c 128 128
  have h2 : c &&& 128 ||| 128 = 128 := by
    have hb : c &&& 128 = (c.testBit 7).toNat * 128 := by
      simpa using Nat.and_two_pow c 7
    cases hcb : c.testBit 7 <;> simp [hb, hcb]
  simp only [ControlRegister.contains]
  simp [h, h2]

/- ------------------------------------------------------------------ -/
/- C1                                                                  -/
/- ------------------------------------------------------------------ -/

/-- Concrete PPU about to cross into scanline 241 with NMI enabled
(CTRL bit 7 set): one dot earlier the scanline counter is 240 and the dot
counter 340. -/
def c1ppu : NesPPU :=
  { NesPPU.new (fun _ => 0) Mirroring.VERTICAL with
      ctrl := 0x80, scanline := 240, cycle := 340 }

/-- C1: the claim states that a tick entering scanline 241 with CTRL bit 7
set makes the PPU set the VBlank flag and raise an NMI request
(`nmi_interrupt` becomes present) which the CPU later polls.  In the source
that path executes `todo!("Should trigger NMI interrupt")`, which panics:
the tick evaluates to `none` and `nmi_interrupt` never becomes present. -/
theorem c1_tick_nmi_panics :
    NesPPU.tick c1ppu 1 = none ∧ c1ppu.nmi_interrupt = none := by
  constructor
  · rfl
  · rfl

/- ------------------------------------------------------------------ -/
/- C7                                                                  -/
/- ------------------------------------------------------------------ -/

/-- C7: the claim states the stored VRAM address is always masked to 14 bits
(at most 0x3FFF) after `$2006` writes and `$2007`-driven increments.  A single
high-byte write of 0x40 through the latch leaves the stored address at
0x4000 > 0x3FFF, because the mask literal in the source
(`0b11_11111_1111_1111`) has fifteen 1-bits (0x7FFF) rather than fourteen, so
the guard `get > 0x3fff` fails to cap the value. -/
theorem c7_addr_exceeds_14_bits :
    (AddrRegister.new.update 0x40).get = 0x4000 ∧ 0x3fff < 0x4000 := by
  constructor
  · rfl
  · decide

/- ------------------------------------------------------------------ -/
/- C10                                                                 -/
/- ------------------------------------------------------------------ -/

/-- C10: whenever a `tick` call crosses a scanline boundary into a scanline
that is at least 241 while CTRL bit 7 (NMI enable) is clear, the call
succeeds and leaves CTRL bit 7 set: `generate_vblank_status` mutates the
CTRL register as a side effect of the query, so ticking past the VBlank
boundary forcibly enables NMI generation. -/
theorem c10_tick_sets_nmi_enable (p : NesPPU) (cycle : Nat)
    (hc : p.cycle + cycle ≥ 341)
    (hs : p.scanline + 1 ≥ 241)
    (hn : ControlRegister.contains p.ctrl 0x80 = false) :
    ∃ q fr, NesPPU.tick p cycle = some (q, fr) ∧
      ControlRegister.contains q.ctrl 0x80 = true := by
  unfold NesPPU.tick
  simp only [hc, if_pos, ge_iff_le]
  rw [if_pos hs]
  simp only [ControlRegister.generate_vblank_status, hn]
  simp only [Bool.false_eq_true, if_false]
  by_cases h262 : p.scanline + 1 ≥ 262
  · rw [if_pos h262]
    exact ⟨_, _, rfl, contains_or_80 p.ctrl⟩
  · rw [if_neg h262]
    exact ⟨_, _, rfl, contains_or_80 p.ctrl⟩

/-- Witness for C10 at a concrete state: the fresh PPU advanced to
scanline 240, dot 340, CTRL = 0, ticked by 1 dot. -/
theorem c10_tick_sets_nmi_enable_witness :
    ∃ q fr,
      NesPPU.tick
        { NesPPU.new (fun _ => 0) Mirroring.VERTICAL with
            scanline := 240, cycle := 340 } 1 = some (q, fr) ∧
      ControlRegister.contains q.ctrl 0x80 = true := by
  exact c10_tick_sets_nmi_enable _ 1 (by decide) (by decide) (by decide)

/- ------------------------------------------------------------------ -/
/- Bus (bus.rs)                                                        -/
/- ------------------------------------------------------------------ -/

/-- Bus state (bus.rs lines 5-11).  The PRG ROM `Vec<u8>` is a function
plus its length; the host `gameloop_callback` only receives an immutable
reference to the PPU and so cannot change emulator state — it is omitted. -/
structure Bus where
  cpu_vram : Nat → Nat
  prg_rom : Nat → Nat
  prg_len : Nat
  ppu : NesPPU
  cycle : Nat

/-- Bus::new (bus.rs lines 14-26). -/
def Bus.new (prg_rom : Nat → Nat) (prg_len : Nat)
    (chr_rom : Nat → Nat) (mirroring : Mirroring) : Bus where
  cpu_vram := fun _ => 0
  prg_rom := prg_rom
  prg_len := prg_len
  ppu := NesPPU.new chr_rom mirroring
  cycle := 0

/-- Bus::tick (bus.rs lines 36-44): advance the CPU cycle counter and run
the PPU for three dots per CPU cycle; the frame callback (called on frame
completion) cannot mutate the Bus and is dropped. -/
def Bus.tick (b : Bus) (cycles : Nat) : Option Bus :=
  (b.ppu.tick (cycles * 3)).map fun r =>
    { b with cycle := b.cycle + cycles, ppu := r.1 }

/-- Bus::poll_nmi_status (bus.rs lines 46-48): `Option::take`. -/
def Bus.poll_nmi_status (b : Bus) : Option Nat × Bus :=
  (b.ppu.nmi_interrupt, { b with ppu := { b.ppu with nmi_interrupt := none } })

/-- Bus::read_prg_rom (bus.rs lines 50-56); `Vec` indexing out of bounds
panics, hence the length guard. -/
def Bus.read_prg_rom (b : Bus) (addr : Nat) : Option Nat :=
  let addr := addr - 0x8000
  let addr := if b.prg_len = 0x4000 ∧ addr ≥ 0x4000 then addr % 0x4000 else addr
  if addr < b.prg_len then some (b.prg_rom addr) else none

/-- Memory::mem_read for Bus (bus.rs lines 65-102).  Reads of `$2002`,
`$2004`, `$2007` mutate the PPU, so the new Bus is returned too; reads of
the write-only registers panic (`none`); `0x2008..=0x3FFF` recurses on
`addr & 0x2007`. -/
def Bus.mem_read (b : Bus) (addr : Nat) : Option (Nat × Bus) :=
  if addr ≤ 0x1FFF then
    some (b.cpu_vram (addr &&& 0x7ff), b)
  else if addr = 0x2000 ∨ addr = 0x2001 ∨ addr = 0x2003 ∨ addr = 0x2005
      ∨ addr = 0x2006 ∨ addr = 0x4014 then
    none
  else if addr = 0x2002 then
    let r := b.ppu.read_status
    some (r.1, { b with ppu := r.2 })
  else if addr = 0x2004 then
    some (b.ppu.read_oam_data, b)
  else if addr = 0x2007 then
    (b.ppu.read_data).map fun r => (r.1, { b with ppu := r.2 })
  else if h : 0x2008 ≤ addr ∧ addr ≤ 0x3FFF then
    b.mem_read (addr &&& 0x2007)
  else if addr ≤ 0x4015 then
    some (0, b)
  else if addr = 0x4016 then
    some (0, b)
  else if addr = 0x4017 then
    some (0, b)
  else if 0x8000 ≤ addr ∧ addr ≤ 0xFFFF then
    (b.read_prg_rom addr).map fun v => (v, b)
  else
    some (0, b)
termination_by addr
decreasing_by
  have h1 : addr &&& 0x2007 ≤ 0x2007 := Nat.and_le_right
  omega

/-- Memory::mem_write for Bus (bus.rs lines 103-158).  Writes to `$2002`
and to `0x8000..=0xFFFF` panic (`none`); `0x2008..=0x3FFF` recurses on
`addr & 0x2007`; APU/joypad writes are ignored. -/
def Bus.mem_write (b : Bus) (addr data : Nat) : Option Bus :=
  if addr ≤ 0x1FFF then
    some { b with cpu_vram := fun i =>
             if i = (addr &&& 0x7ff) then data else b.cpu_vram i }
  else if addr = 0x2000 then
    some { b with ppu := b.ppu.write_to_ctrl data }
  else if addr = 0x2001 then
    some { b with ppu := b.ppu.write_to_mask data }
  else if addr = 0x2002 then
    none
  else if addr = 0x2003 then
    some { b with ppu := b.ppu.write_to_oam_addr data }
  else if addr = 0x2004 then
    some { b with ppu := b.ppu.write_to_oam_data data }
  else if addr = 0x2005 then
    some { b with ppu := b.ppu.write_to_scroll data }
  else if addr = 0x2006 then
    some { b with ppu := b.ppu.write_to_ppu_addr data }
  else if addr = 0x2007 then
    (b.ppu.write_to_data data).map fun p => { b with ppu := p }
  else if h : 0x2008 ≤ addr ∧ addr ≤ 0x3FFF then
    b.mem_write (addr &&& 0x2007) data
  else if addr ≤ 0x4013 then
    some b
  else if addr = 0x4014 then
    some b
  else if addr = 0x4015 then
    some b
  else if addr = 0x4016 then
    some b
  else if addr = 0x4017 then
    some b
  else if 0x8000 ≤ addr ∧ addr ≤ 0xFFFF then
    none
  else
    some b
termination_by addr
decreasing_by
  have h1 : addr &&& 0x2007 ≤ 0x2007 := Nat.and_le_right
  omega

/- ------------------------------------------------------------------ -/
/- C6                                                                  -/
/- ------------------------------------------------------------------ -/

/-- C6: for addresses in `0x0000..=0x1FFF`, writing a byte through the Bus
and reading it back returns that byte; moreover any two such addresses that
are congruent modulo 0x800 alias the same RAM cell, so a write through one
is read back through the other. -/
theorem c6_ram_roundtrip_and_mirror (b : Bus) (a a' v : Nat)
    (ha : a ≤ 0x1FFF) (ha' : a' ≤ 0x1FFF) (hm : a % 0x800 = a' % 0x800) :
    ∃ b2, Bus.mem_write b a v = some b2 ∧ Bus.mem_read b2 a' = some (v, b2) := by
  have hidx : a' &&& 0x7ff = a &&& 0x7ff := by
    rw [and_7ff_eq_mod, and_7ff_eq_mod, hm]
  have hw : Bus.mem_write b a v =
      some { b with cpu_vram := fun i =>
               if i = (a &&& 0x7ff) then v else b.cpu_vram i } := by
    rw [Bus.mem_write.eq_def, if_pos ha]
  refine ⟨_, hw, ?_⟩
  rw [Bus.mem_read.eq_def, if_pos ha']
  simp [hidx]

/-- Witness for C6: writing 0xAB at 0x0005 and reading it back at the
mirror address 0x1805. -/
theorem c6_ram_roundtrip_and_mirror_witness :
    ∃ b2, Bus.mem_write
        (Bus.new (fun _ => 0) 0x8000 (fun _ => 0) Mirroring.VERTICAL)
        0x0005 0xAB = some b2 ∧
      Bus.mem_read b2 0x1805 = some (0xAB, b2) := by
  exact c6_ram_roundtrip_and_mirror _ 0x0005 0x1805 0xAB
    (by decide) (by decide) (by decide)

/- ------------------------------------------------------------------ -/
/- C9                                                                  -/
/- ------------------------------------------------------------------ -/

/-- Support for C9: in the source `MaskRegister::update` computes
`MaskRegister::from_bits_truncate(data)` and discards it without assigning
`*self`, so a `$2001` write leaves the stored MASK register unchanged for
any starting bus and any value. -/
theorem c9_mask_write_is_discarded (b : Bus) (v : Nat) :
    ∃ b2, Bus.mem_write b 0x2001 v = some b2 ∧ b2.ppu.mask = b.ppu.mask := by
  have hw : Bus.mem_write b 0x2001 v =
      some { b with ppu := b.ppu.write_to_mask v } := by
    rw [Bus.mem_write.eq_def]
    norm_num
  exact ⟨_, hw, rfl⟩

/-- C9: the claim states that after a CPU write of `v` to `$2001` the
stored MASK register equals `v`; writing 0xFF to `$2001` on a fresh bus
(mask = 0) instead leaves the mask register at 0, which differs from the
written byte — `MaskRegister::update` discards the value it computes. -/
theorem c9_mask_write_is_discarded_concrete :
    ∃ b2, Bus.mem_write
        (Bus.new (fun _ => 0) 0x8000 (fun _ => 0) Mirroring.VERTICAL)
        0x2001 0xFF = some b2 ∧
      b2.ppu.mask = 0 ∧ (0 : Nat) ≠ 0xFF := by
  obtain ⟨b2, hw, hmask⟩ := c9_mask_write_is_discarded
    (Bus.new (fun _ => 0) 0x8000 (fun _ => 0) Mirroring.VERTICAL) 0xFF
  exact ⟨b2, hw, hmask, by decide⟩

/- ------------------------------------------------------------------ -/
/- AddrRegister arithmetic lemmas                                      -/
/- ------------------------------------------------------------------ -/

/-- Addressing modes (cpu.rs lines 10-21). -/
inductive AddressingMode where
  | Immediate
  | ZeroPage
  | ZeroPage_X
  | ZeroPage_Y
  | Absolute
  | Absolute_X
  | Absolute_Y
  | Indirect_X
  | Indirect_Y
  | NoneAddressing
deriving DecidableEq

/-- CPU state (cpu.rs lines 56-66). -/
structure CPU where
  register_a : Nat
  register_x : Nat
  register_y : Nat
  status : Nat
  program_counter : Nat
  stack_pointer : Nat
  bus : Bus
  extra_cycles : Nat

/-- CPU::new (cpu.rs lines 82-93): INITIAL_STATUS = RESERVED (0x20) or
INTERRUPT_DISABLE (0x04) = 0x24; INITIAL_STACK = 0xfd; PC = 0x8000. -/
def CPU.new (bus : Bus) : CPU where
  register_a := 0
  register_x := 0
  register_y := 0
  status := 0x24
  program_counter := 0x8000
  stack_pointer := 0xfd
  bus := bus
  extra_cycles := 0

/-- Memory::mem_read for CPU delegates to the Bus (cpu.rs lines 68-73). -/
def CPU.mem_read (c : CPU) (addr : Nat) : Option (Nat × CPU) :=
  (c.bus.mem_read addr).map fun r => (r.1, { c with bus := r.2 })

/-- Memory::mem_write for CPU delegates to the Bus (cpu.rs lines 75-78). -/
def CPU.mem_write (c : CPU) (addr data : Nat) : Option CPU :=
  (c.bus.mem_write addr data).map fun b => { c with bus := b }

/-- Memory::mem_read_u16 (cpu.rs lines 44-48): little endian. -/
def CPU.mem_read_u16 (c : CPU) (pos : Nat) : Option (Nat × CPU) := do
  let (lo, c) ← c.mem_read pos
  let (hi, c) ← c.mem_read (pos + 1)
  some ((hi <<< 8) ||| lo, c)

/-- CPU::is_page_crossed (cpu.rs lines 278-281).  The source compares
`addr1 & 0xFF00` with `addr2 & 0xFF` — the LOW byte of the second
address, not its high byte. -/
def CPU.is_page_crossed (addr1 addr2 : Nat) : Bool :=
  (addr1 &&& 0xFF00) != (addr2 &&& 0xFF)

/-- CPU::get_absolute_address (cpu.rs lines 283-332).  The catch-all arm
panics (`none`).  Zero-page arithmetic wraps at 256; absolute indexed
arithmetic wraps at 65536 (u16 wrapping_add). -/
def CPU.get_absolute_address (c : CPU) (mode : AddressingMode) (addr : Nat) :
    Option ((Nat × Bool) × CPU) :=
  match mode with
  | AddressingMode.ZeroPage =>
      (c.mem_read addr).map fun r => ((r.1, false), r.2)
  | AddressingMode.Absolute =>
      (c.mem_read_u16 addr).map fun r => ((r.1, false), r.2)
  | AddressingMode.ZeroPage_X => do
      let (pos, c) ← c.mem_read addr
      some (((pos + c.register_x) % 256, false), c)
  | AddressingMode.ZeroPage_Y => do
      let (pos, c) ← c.mem_read addr
      some (((pos + c.register_y) % 256, false), c)
  | AddressingMode.Absolute_X => do
      let (base, c) ← c.mem_read_u16 addr
      let a := (base + c.register_x) % 65536
      some ((a, CPU.is_page_crossed base a), c)
  | AddressingMode.Absolute_Y => do
      let (base, c) ← c.mem_read_u16 addr
      let a := (base + c.register_y) % 65536
      some ((a, CPU.is_page_crossed base a), c)
  | AddressingMode.Indirect_X => do
      let (base, c) ← c.mem_read addr
      let ptr := (base + c.register_x) % 256
      let (lo, c) ← c.mem_read ptr
      let (hi, c) ← c.mem_read ((ptr + 1) % 256)
      some (((hi <<< 8) ||| lo, false), c)
  | AddressingMode.Indirect_Y => do
      let (base, c) ← c.mem_read addr
      let (lo, c) ← c.mem_read base
      let (hi, c) ← c.mem_read ((base + 1) % 256)
      let deref_base := (hi <<< 8) ||| lo
      let deref := (deref_base + c.register_y) % 65536
      some ((deref, CPU.is_page_crossed deref_base deref), c)
  | _ => none

/-- CPU::get_operand_address (cpu.rs lines 271-276). -/
def CPU.get_operand_address (c : CPU) (mode : AddressingMode) :
    Option ((Nat × Bool) × CPU) :=
  match mode with
  | AddressingMode.Immediate => some ((c.program_counter, false), c)
  | _ => c.get_absolute_address mode c.program_counter

/-- CPU::update_zero_and_negative_flags (cpu.rs lines 920-931), as a
function on the status byte. -/
def CPU.update_zero_and_negative_flags (st result : Nat) : Nat :=
  let st := if result = 0 then st ||| 0x02 else st &&& (0xFF ^^^ 0x02)
  if result >>> 7 = 1 then st ||| 0x80 else st &&& (0xFF ^^^ 0x80)

/-- CPU::lda (cpu.rs lines 569-580): load A, set Z/N, and charge one extra
cycle when the addressing resolver reported a page cross. -/
def CPU.lda (c : CPU) (mode : AddressingMode) : Option CPU := do
  let ((addr, page_crossed), c) ← c.get_operand_address mode
  let (value, c) ← c.mem_read addr
  let c := { c with register_a := value,
                    status := CPU.update_zero_and_negative_flags c.status value }
  if page_crossed then some { c with extra_cycles := c.extra_cycles + 1 }
  else some c

/-- CPU::stack_push (cpu.rs lines 970-978): write at 0x100 + SP, then
decrement SP with u8 wrap-around. -/
def CPU.stack_push (c : CPU) (data : Nat) : Option CPU := do
  let c ← c.mem_write (0x100 + c.stack_pointer) data
  some { c with stack_pointer := (c.stack_pointer + 255) % 256 }

/-- CPU::stack_push_u16 (cpu.rs lines 986-991): push high byte, then low
byte. -/
def CPU.stack_push_u16 (c : CPU) (data : Nat) : Option CPU := do
  let c ← c.stack_push ((data >>> 8) % 256)
  c.stack_push (data &&& 0xff)

/-- CPU::interrupt_nmi (cpu.rs lines 124-138): push PC, push P with B
cleared and U set, set I, advance the Bus by 2 cycles, load PC from the
little-endian vector at 0xFFFA. -/
def CPU.interrupt_nmi (c : CPU) : Option CPU := do
  let c ← c.stack_push_u16 c.program_counter
  let flag := (c.status &&& (0xFF ^^^ 0x10)) ||| 0x20
  let c ← c.stack_push flag
  let c := { c with status := c.status ||| 0x04 }
  let b ← c.bus.tick 2
  let c := { c with bus := b }
  let (v, c) ← c.mem_read_u16 0xfffa
  some { c with program_counter := v }

/-- CPU::jmp (cpu.rs lines 534-555), the handler of opcode 0x6C.  The
method reaches memory only through the Memory trait (mem_read and
mem_read_u16), modelled here by a pure byte-read function.  If the vector
address has low byte 0xFF, the high byte of the target is fetched from the
start of the same page (addr & 0xFF00) — the 6502 page-wrap bug. -/
def CPU.jmp_target (mem : Nat → Nat) (pc : Nat) : Nat :=
  let addr := ((mem (pc + 1)) <<< 8) ||| mem pc
  if addr &&& 0x00FF = 0x00FF then
    ((mem (addr &&& 0xFF00)) <<< 8) ||| mem addr
  else
    ((mem (addr + 1)) <<< 8) ||| mem addr

/-- One iteration of CPU::run_with_callback (cpu.rs lines 146-253)
specialised to opcode 0x6C (JMP indirect): fetch the opcode at PC, advance
PC by 1, run the jmp handler, and apply the end-of-loop adjustment
`PC += len - 1` (len = 3 for 0x6C) only if the handler left PC unchanged. -/
def CPU.run_step_jmp_indirect (mem : Nat → Nat) (pc : Nat) : Nat :=
  let pc1 := pc + 1
  let t := CPU.jmp_target mem pc1
  if pc1 = t then t + 2 else t

/- ------------------------------------------------------------------ -/
/- C3                                                                  -/
/- ------------------------------------------------------------------ -/

/-- C3: executing JMP indirect (0x6C) with vector 0x30FF (low byte 0xFF)
takes the target low byte from mem[0x30FF] and the high byte from
mem[0x3000] (= vector & 0xFF00), not from mem[0x3100] (= vector + 1): for
ANY memory with the scenario values the new PC is 0x4080, not 0x5080 —
in particular the byte 0x50 stored at 0x3100 is never consulted. -/
theorem c3_jmp_indirect_page_wrap (mem : Nat → Nat)
    (h0 : mem 0x8000 = 0x6C) (h1 : mem 0x8001 = 0xFF) (h2 : mem 0x8002 = 0x30)
    (h3 : mem 0x30FF = 0x80) (h4 : mem 0x3000 = 0x40) (h5 : mem 0x3100 = 0x50) :
    CPU.run_step_jmp_indirect mem 0x8000 = 0x4080 ∧ (0x4080 : Nat) ≠ 0x5080 := by
  constructor
  · simp only [CPU.run_step_jmp_indirect, CPU.jmp_target]
    norm_num [h1, h2]
    norm_num [show (48 <<< 8 ||| 255 : Nat) = 12543 from by decide,
      show (12543 &&& 255 : Nat) = 255 from by decide,
      show (12543 &&& 65280 : Nat) = 12288 from by decide, h3, h4,
      show (64 <<< 8 ||| 128 : Nat) = 16512 from by decide]
  · decide

/-- Concrete memory for the C3 witness, holding exactly the scenario bytes. -/
def c3mem : Nat → Nat := fun a =>
  if a = 0x8000 then 0x6C
  else if a = 0x8001 then 0xFF
  else if a = 0x8002 then 0x30
  else if a = 0x30FF then 0x80
  else if a = 0x3000 then 0x40
  else if a = 0x3100 then 0x50
  else 0

/-- Witness for C3 on the concrete scenario memory. -/
theorem c3_jmp_indirect_page_wrap_witness :
    CPU.run_step_jmp_indirect c3mem 0x8000 = 0x4080 ∧ (0x4080 : Nat) ≠ 0x5080 :=
  c3_jmp_indirect_page_wrap c3mem rfl rfl rfl rfl rfl rfl

/- ------------------------------------------------------------------ -/
/- C2                                                                  -/
/- ------------------------------------------------------------------ -/

/-- Concrete CPU for C2: RAM is all zeros, PC = 0x0000 (so the Absolute_X
operand bytes read as base = 0x0000) and X = 1, giving effective address
0x0001 — same page as the base. -/
def c2cpu : CPU :=
  { CPU.new (Bus.new (fun _ => 0) 0x8000 (fun _ => 0) Mirroring.VERTICAL) with
      program_counter := 0x0000, register_x := 1 }

/-- C2: the claim states an extra cycle is charged iff the high bytes of
base and effective address differ.  Executing LDA Absolute_X with base
0x0000 and X = 1 (effective address 0x0001, same page: both high bytes are
0x00) nevertheless charges one extra cycle, because is_page_crossed
compares `base & 0xFF00` with `addr & 0xFF` (the low byte). -/
theorem c2_extra_cycle_without_page_cross :
    (CPU.lda c2cpu AddressingMode.Absolute_X).map (fun c => c.extra_cycles)
        = some 1 ∧
    (0x0000 &&& 0xFF00 : Nat) = (0x0001 &&& 0xFF00) := by
  constructor
  · simp only [CPU.lda, CPU.get_operand_address, CPU.get_absolute_address,
      CPU.mem_read_u16, CPU.mem_read, c2cpu, CPU.new, Bus.new]
    rw [Bus.mem_read.eq_def]
    norm_num
    rw [Bus.mem_read.eq_def]
    norm_num
    rw [Bus.mem_read.eq_def]
    norm_num [CPU.is_page_crossed]
  · decide

/- ------------------------------------------------------------------ -/
/- C4 helper lemmas                                                    -/
/- ------------------------------------------------------------------ -/

/-- RAM writes through the Bus land in cpu_vram at the mirrored index. -/
theorem Bus.mem_write_ram (b : Bus) (a v : Nat) (h : a ≤ 0x1FFF) :
    Bus.mem_write b a v = some { b with cpu_vram := fun i =>
        if i = (a &&& 0x7ff) then v else b.cpu_vram i } := by
  rw [Bus.mem_write.eq_def, if_pos h]

/-- A stack push with in-range SP writes the byte at 0x100 + SP (an address
below the RAM mirror bound, so the mirror mask is the identity) and
decrements SP mod 256. -/
theorem CPU.stack_push_eq (c : CPU) (d : Nat) (h : c.stack_pointer < 256) :
    CPU.stack_push c d = some { c with
      bus := { c.bus with cpu_vram := fun i =>
        if i = 0x100 + c.stack_pointer then d else c.bus.cpu_vram i },
      stack_pointer := (c.stack_pointer + 255) % 256 } := by
  have hb : 0x100 + c.stack_pointer ≤ 0x1FFF := by omega
  have hidx : (0x100 + c.stack_pointer) &&& 0x7ff = 0x100 + c.stack_pointer := by
    rw [and_7ff_eq_mod]
    omega
  unfold CPU.stack_push CPU.mem_write
  rw [Bus.mem_write_ram _ _ _ hb]
  simp only [hidx, Option.map_some', Option.bind_eq_bind, Option.some_bind]

/-- Bus::tick when the PPU stays within the current scanline: the CPU cycle
counter advances by `cycles` and the PPU dot counter by `3 * cycles`. -/
theorem Bus.tick_no_boundary (b : Bus) (cycles : Nat)
    (h : b.ppu.cycle + cycles * 3 < 341) :
    Bus.tick b cycles =
      some { b with
             cycle := b.cycle + cycles,
             ppu := { b.ppu with cycle := b.ppu.cycle + cycles * 3 } } := by
  unfold Bus.tick NesPPU.tick
  rw [if_neg (show ¬ (b.ppu.cycle + cycles * 3 ≥ 341) from by omega)]
  rfl

/-- Bus reads in the PRG ROM window for a 32 KiB cartridge return the ROM
byte at addr - 0x8000 without mutating the bus. -/
theorem Bus.mem_read_prg (b : Bus) (a : Nat) (h1 : 0x8000 ≤ a)
    (h2 : a ≤ 0xFFFF) (h3 : b.prg_len = 0x8000) :
    Bus.mem_read b a = some (b.prg_rom (a - 0x8000), b) := by
  rw [Bus.mem_read.eq_def]
  rw [if_neg (by omega), if_neg (by omega), if_neg (by omega),
      if_neg (by omega), if_neg (by omega), dif_neg (by omega),
      if_neg (by omega), if_neg (by omega), if_neg (by omega),
      if_pos (show 0x8000 ≤ a ∧ a ≤ 0xFFFF from ⟨h1, h2⟩)]
  simp only [Bus.read_prg_rom]
  rw [if_neg (show ¬ (b.prg_len = 0x4000 ∧ a - 0x8000 ≥ 0x4000) from by omega)]
  rw [if_pos (show a - 0x8000 < b.prg_len from by omega)]
  rfl

/-- Two stack pushes (high byte then low byte) as performed by
CPU::stack_push_u16. -/
theorem CPU.stack_push_u16_eq (c : CPU) (d : Nat) (h : c.stack_pointer < 256) :
    CPU.stack_push_u16 c d =
      some { c with
             bus := { c.bus with cpu_vram := fun i =>
               if i = 0x100 + (c.stack_pointer + 255) % 256 then d &&& 0xff
               else if i = 0x100 + c.stack_pointer then (d >>> 8) % 256
               else c.bus.cpu_vram i },
             stack_pointer := (c.stack_pointer + 254) % 256 } := by
  unfold CPU.stack_push_u16
  rw [CPU.stack_push_eq c _ h]
  simp only [Option.bind_eq_bind, Option.some_bind]
  rw [CPU.stack_push_eq _ _ (Nat.mod_lt _ (show 0 < 256 by norm_num))]
  rw [show ((c.stack_pointer + 255) % 256 + 255) % 256
      = (c.stack_pointer + 254) % 256 from by omega]

/- ------------------------------------------------------------------ -/
/- C4                                                                  -/
/- ------------------------------------------------------------------ -/

/-- C4: servicing a pending NMI pushes PC high byte at 0x100+SP and low
byte one slot below, pushes P with the B flag cleared and the U flag set
one slot further down, sets the I flag, advances the Bus cycle counter by
exactly 2, loads PC from the little-endian vector at 0xFFFA (which for a
32 KiB cartridge is PRG ROM offset 0x7FFA/0x7FFB), and leaves SP decreased
by three (mod 256). -/
theorem c4_interrupt_nmi_spec (c : CPU)
    (hsp : c.stack_pointer < 256)
    (hppu : c.bus.ppu.cycle + 6 < 341)
    (hlen : c.bus.prg_len = 0x8000) :
    ∃ c2, CPU.interrupt_nmi c = some c2 ∧
      c2.bus.cpu_vram (0x100 + c.stack_pointer) = (c.program_counter >>> 8) % 256 ∧
      c2.bus.cpu_vram (0x100 + (c.stack_pointer + 255) % 256) =
        c.program_counter &&& 0xff ∧
      c2.bus.cpu_vram (0x100 + (c.stack_pointer + 254) % 256) =
        ((c.status &&& (0xFF ^^^ 0x10)) ||| 0x20) ∧
      c2.status = c.status ||| 0x04 ∧
      c2.bus.cycle = c.bus.cycle + 2 ∧
      c2.program_counter =
        ((c.bus.prg_rom 0x7ffb) <<< 8) ||| c.bus.prg_rom 0x7ffa ∧
      c2.stack_pointer = (c.stack_pointer + 253) % 256 := by
  unfold CPU.interrupt_nmi
  rw [CPU.stack_push_u16_eq c _ hsp]
  simp only [Option.bind_eq_bind, Option.some_bind]
  rw [CPU.stack_push_eq _ _ (Nat.mod_lt _ (show 0 < 256 by norm_num))]
  simp only [Option.bind_eq_bind, Option.some_bind]
  rw [Bus.tick_no_boundary _ 2 ?ht]
  simp only [Option.bind_eq_bind, Option.some_bind]
  unfold CPU.mem_read_u16 CPU.mem_read
  rw [Bus.mem_read_prg _ 0xfffa (by norm_num) (by norm_num) ?hl1]
  simp only [Option.bind_eq_bind, Option.map_some', Option.some_bind]
  rw [Bus.mem_read_prg _ (0xfffa + 1) (by norm_num) (by norm_num) ?hl2]
  simp only [Option.bind_eq_bind, Option.map_some', Option.some_bind]
  refine ⟨_, rfl, ?_, ?_, ?_, ?_, ?_, ?_, ?_⟩
  · show (if 0x100 + c.stack_pointer = 0x100 + (c.stack_pointer + 254) % 256
        then _ else _) = _
    rw [if_neg (by omega), if_neg (by omega), if_pos rfl]
  · show (if 0x100 + (c.stack_pointer + 255) % 256
        = 0x100 + (c.stack_pointer + 254) % 256 then _ else _) = _
    rw [if_neg (by omega), if_pos rfl]
  · show (if 0x100 + (c.stack_pointer + 254) % 256
        = 0x100 + (c.stack_pointer + 254) % 256 then _ else _) = _
    rw [if_pos rfl]
  · rfl
  · rfl
  · show ((c.bus.prg_rom (0xfffa + 1 - 0x8000)) <<< 8) |||
        c.bus.prg_rom (0xfffa - 0x8000) = _
    norm_num
  · show ((c.stack_pointer + 254) % 256 + 255) % 256 = (c.stack_pointer + 253) % 256
    omega
  case ht =>
    show c.bus.ppu.cycle + 2 * 3 < 341
    omega
  case hl1 =>
    show c.bus.prg_len = 0x8000
    exact hlen
  case hl2 =>
    show c.bus.prg_len = 0x8000
    exact hlen

/-- Witness for C4 on a concrete CPU: fresh bus (PPU at dot 0), SP = 0xFD,
PC = 0x8000, status 0x24, PRG length 0x8000. -/
theorem c4_interrupt_nmi_spec_witness :
    ∃ c2, CPU.interrupt_nmi
        (CPU.new (Bus.new (fun _ => 0) 0x8000 (fun _ => 0) Mirroring.VERTICAL))
        = some c2 ∧
      c2.bus.cpu_vram (0x100 + 0xfd) = (0x8000 >>> 8) % 256 ∧
      c2.bus.cpu_vram (0x100 + (0xfd + 255) % 256) = 0x8000 &&& 0xff ∧
      c2.bus.cpu_vram (0x100 + (0xfd + 254) % 256) =
        ((0x24 &&& (0xFF ^^^ 0x10)) ||| 0x20) ∧
      c2.status = 0x24 ||| 0x04 ∧
      c2.bus.cycle = 0 + 2 ∧
      c2.program_counter = ((0 : Nat) <<< 8) ||| 0 ∧
      c2.stack_pointer = (0xfd + 253) % 256 :=
  c4_interrupt_nmi_spec
    (CPU.new (Bus.new (fun _ => 0) 0x8000 (fun _ => 0) Mirroring.VERTICAL))
    (by decide) (by decide) (by decide)

/- ------------------------------------------------------------------ -/
/- Frame and render (frame.rs, render.rs)                              -/
/- ------------------------------------------------------------------ -/

/-- Frame (frame.rs lines 1-13): a 256 × 240 × 3-byte RGB buffer; the byte
vector is a function plus its length (used by the bounds check). -/
structure Frame where
  data : Nat → Nat
  len : Nat

/-- Frame::new (frame.rs lines 9-13): WUDTH = 256, HEIGHT = 240,
zero-filled. -/
def Frame.new : Frame := ⟨fun _ => 0, 256 * 240 * 3⟩

/-- Frame::set_pixcel (frame.rs lines 15-22): writes three consecutive
bytes at base = y*3*256 + x*3 when base+2 is inside the buffer, silently
ignoring out-of-range coordinates. -/
def Frame.set_pixcel (f : Frame) (x y : Nat) (rgb : Nat × Nat × Nat) : Frame :=
  let base := y * 3 * 256 + x * 3
  if base + 2 < f.len then
    { f with data := fun i =>
        if i = base then rgb.1
        else if i = base + 1 then rgb.2.1
        else if i = base + 2 then rgb.2.2
        else f.data i }
  else f

/-- Innermost loop body of render (render.rs lines 16-29), for one bit
column `x` (the source iterates `x` over `(0..7).rev()` and shifts
`upper`/`lower` right once per iteration, so at loop variable `x` they have
been shifted `6 - x` times).  The two-bit `value` is always at most 3, so
the source's unreachable `_ => panic!` arm is the value-3 case here.
Modelled from the spec in one respect: `palette.rs` (SYSTEM_PALLETE, the
64-entry NES system palette) is not among the provided sources, so the
palette is a parameter. -/
def render_inner_x (SYSTEM_PALLETE : Nat → Nat × Nat × Nat)
    (upper lower tile_x tile_y y : Nat) (frame : Frame) (x : Nat) : Frame :=
  let u := upper >>> (6 - x)
  let l := lower >>> (6 - x)
  let value := ((1 &&& u) <<< 1) ||| (1 &&& l)
  let rgb :=
    if value = 0 then SYSTEM_PALLETE 0x01
    else if value = 1 then SYSTEM_PALLETE 0x23
    else if value = 2 then SYSTEM_PALLETE 0x27
    else SYSTEM_PALLETE 0x30
  frame.set_pixcel (tile_x + x) (tile_y + y) rgb

/-- Row loop body of render (render.rs lines 12-30): fetch the two pattern
bytes of row `y` and run the bit-column loop. -/
def render_inner_y (SYSTEM_PALLETE : Nat → Nat × Nat × Nat) (p : NesPPU)
    (bank tile tile_x tile_y : Nat) (frame : Frame) (y : Nat) : Frame :=
  let upper := p.chr_rom (bank + tile * 16 + y)
  let lower := p.chr_rom (bank + tile * 16 + y + 8)
  ((List.range 7).reverse).foldl
    (render_inner_x SYSTEM_PALLETE upper lower tile_x tile_y y) frame

/-- Tile loop body of render (render.rs lines 6-31): look up the tile index
and grid position and run the row loop. -/
def render_tile (SYSTEM_PALLETE : Nat → Nat × Nat × Nat) (p : NesPPU)
    (bank : Nat) (frame : Frame) (i : Nat) : Frame :=
  let tile := p.vram i
  let tile_x := i % 32
  let tile_y := i / 32
  (List.range 8).foldl
    (render_inner_y SYSTEM_PALLETE p bank tile tile_x tile_y) frame

/-- render (render.rs lines 3-32): iterate `i` over `0..0x3cf` (exclusive
upper bound, i.e. tile indices 0 through 0x3CE) and draw each tile at
`(tile_x + x, tile_y + y)` — the source applies no `* 8` scaling to the
tile coordinates. -/
def render (SYSTEM_PALLETE : Nat → Nat × Nat × Nat) (ppu : NesPPU)
    (frame : Frame) : Frame :=
  let bank := ControlRegister.bknd_pattern_addr ppu.ctrl
  (List.range 0x3cf).foldl (render_tile SYSTEM_PALLETE ppu bank) frame

/- ------------------------------------------------------------------ -/
/- C8                                                                  -/
/- ------------------------------------------------------------------ -/

/-- Bytes strictly above the written triple are untouched by set_pixcel. -/
theorem Frame.set_pixcel_data_high (f : Frame) (x y : Nat)
    (rgb : Nat × Nat × Nat) (j : Nat) (hj : y * 3 * 256 + x * 3 + 2 < j) :
    (f.set_pixcel x y rgb).data j = f.data j := by
  unfold Frame.set_pixcel
  by_cases h : y * 3 * 256 + x * 3 + 2 < f.len
  · rw [if_pos h]
    show (if j = y * 3 * 256 + x * 3 then rgb.1
          else if j = y * 3 * 256 + x * 3 + 1 then rgb.2.1
          else if j = y * 3 * 256 + x * 3 + 2 then rgb.2.2
          else f.data j) = f.data j
    rw [if_neg (by omega), if_neg (by omega), if_neg (by omega)]
  · rw [if_neg h]

/-- A fold whose every step preserves the byte at index j preserves it. -/
theorem foldl_data_eq {α : Type} (l : List α) (g : Frame → α → Frame)
    (j : Nat) (h : ∀ fr a, a ∈ l → (g fr a).data j = fr.data j) (fr : Frame) :
    (l.foldl g fr).data j = fr.data j := by
  induction l generalizing fr with
  | nil => rfl
  | cons a t ih =>
      rw [List.foldl_cons]
      rw [ih (fun fr b hb => h fr b (List.mem_cons_of_mem a hb)) (g fr a)]
      exact h fr a (List.mem_cons_self a t)

/-- The bit-column step only writes below byte index 28530 when the tile
coordinates are in range. -/
theorem render_inner_x_data_high (pal : Nat → Nat × Nat × Nat)
    (upper lower tile_x tile_y y : Nat) (fr : Frame) (x j : Nat)
    (htx : tile_x ≤ 31) (hty : tile_y ≤ 30) (hy : y ≤ 7) (hx : x ≤ 6)
    (hj : 28530 ≤ j) :
    (render_inner_x pal upper lower tile_x tile_y y fr x).data j = fr.data j := by
  unfold render_inner_x
  refine Frame.set_pixcel_data_high _ _ _ _ _ ?_
  omega

/-- The row step leaves bytes at index 28530 or above untouched. -/
theorem render_inner_y_data_high (pal : Nat → Nat × Nat × Nat) (p : NesPPU)
    (bank tile tile_x tile_y : Nat) (fr : Frame) (y j : Nat)
    (htx : tile_x ≤ 31) (hty : tile_y ≤ 30) (hy : y ≤ 7) (hj : 28530 ≤ j) :
    (render_inner_y pal p bank tile tile_x tile_y fr y).data j = fr.data j := by
  unfold render_inner_y
  refine foldl_data_eq _ _ _ ?_ fr
  intro fr2 x hx
  have hx2 : x < 7 := List.mem_range.mp (List.mem_reverse.mp hx)
  exact render_inner_x_data_high pal _ _ tile_x tile_y y fr2 x j
    htx hty hy (by omega) hj

/-- The tile step leaves bytes at index 28530 or above untouched. -/
theorem render_tile_data_high (pal : Nat → Nat × Nat × Nat) (p : NesPPU)
    (bank : Nat) (fr : Frame) (i j : Nat) (hi : i < 0x3cf) (hj : 28530 ≤ j) :
    (render_tile pal p bank fr i).data j = fr.data j := by
  rw [render_tile]
  refine foldl_data_eq _ _ _ ?_ fr
  intro fr2 y hy
  have hy2 : y < 8 := List.mem_range.mp hy
  exact render_inner_y_data_high pal p bank _ (i % 32) (i / 32) fr2 y j
    (by omega) (by omega) (by omega) hj

/-- Every write issued by render lands at a coordinate (px, py) with
px ≤ 37 and py ≤ 37 (tile_x ≤ 31, x ≤ 6, tile_y ≤ 30, y ≤ 7), so every
frame byte at index 28530 or above is left untouched. -/
theorem render_data_high (pal : Nat → Nat × Nat × Nat) (p : NesPPU)
    (f : Frame) (j : Nat) (hj : 28530 ≤ j) :
    (render pal p f).data j = f.data j := by
  rw [render]
  refine foldl_data_eq _ _ _ ?_ f
  intro fr i hi
  exact render_tile_data_high pal p _ fr i j (List.mem_range.mp hi) hj

/-- Concrete PPU for C8: nametable all zeros (every tile index 0), CHR ROM
all zeros (every pattern bit 0), CTRL = 0 (pattern bank 0). -/
def c8ppu : NesPPU := NesPPU.new (fun _ => 0) Mirroring.VERTICAL

/-- Concrete system palette for C8: entry i has red component i + 1, so
every palette entry has a nonzero red byte. -/
def c8pal : Nat → Nat × Nat × Nat := fun i => (i + 1, 0, 0)

/-- C8: the claim states the renderer writes the pixel for tile (tx, ty),
row `row`, bit b at frame coordinate (tx*8 + (7-b), ty*8 + row); for the
all-zero nametable/CHR state every pixel of the full 256×224 tile area —
in particular (100, 100), from tile (12, 12), row 4, bit 3 — would then
receive palette entry 0x01, whose red byte here is 2.  The source instead
writes tile pixels at (tile_x + x, tile_y + y) (no *8 scaling, x ≤ 6) and
iterates `0..0x3cf`, so no write ever reaches index (100*256 + 100)*3 and
that byte stays 0. -/
theorem c8_render_misses_claimed_pixel :
    (render c8pal c8ppu Frame.new).data ((100 * 256 + 100) * 3) = 0 ∧
    (c8pal 0x01).1 ≠ 0 := by
  constructor
  · rw [render_data_high c8pal c8ppu Frame.new _ (by norm_num)]
    rfl
  · decide
